import Mathlib

/-
Verification of the SystemRDL property rule engine
(`systemrdl/core/properties.py`).

The module defines one `PropertyRule` object per standard SystemRDL property.
Each rule carries static attributes (`bindable_to`, `valid_types`, `default`,
`dyn_assign_allowed`, `mutex_group`) and three operations:

  * `assign_value(comp_def, value, err_ctx)` - binding check, value-kind
    classification, castability check, then storage into the component
    definition's property dict, plus subclass side effects (paired-boolean
    rules delete the opposite key, alias rules also write the canonical key);
  * `get_default(node)` - default resolution when the property was never
    explicitly assigned;
  * `validate(node, value)` - post-elaboration checks that record
    recoverable errors.

The embedding below translates those operations and the full concrete rule
catalog into executable Lean definitions.  Diagnostics are modelled
explicitly: `msg.fatal` aborts the current statement, so the assignment
operation returns `Except AssignErr CompDef`; `msg.error` records a
recoverable diagnostic and continues, so validation returns the list of
recorded messages; the `raise RuntimeError` paths surface as an engine
fault.
-/

/-- The component classes a property can bind to (`comp.Signal`, `comp.Field`,
`comp.Reg`, `comp.Regfile`, `comp.Mem`, `comp.Addrmap`). -/
inductive CompKind where
  | Signal
  | Field
  | Reg
  | Regfile
  | Mem
  | Addrmap
deriving DecidableEq

/-- The value-kind tags used by the castability check.  These are the entries
that occur in the `valid_types` lists of the rule catalog: `str`, `bool`,
`int`, `tp.Array(str)`, component references (`comp.Field`, `comp.Signal`),
and the enumerated-literal catalogs from `rdltypes`. -/
inductive ValueKind where
  | VKBool
  | VKInt
  | VKStr
  | VKArrayStr
  | VKRefField
  | VKRefSignal
  | VKAccessType
  | VKOnReadType
  | VKOnWriteType
  | VKPrecedenceType
  | VKUserEnum
  | VKAddressingType
deriving DecidableEq

/-- A runtime value that can be assigned to or stored under a property.
Candidate values reaching `assign_value` are bool literals, `PrecedenceType`
literals, user-enum literals, or unresolved expressions (which carry the kind
the expression collaborator predicts via `predict_type`).  Values reaching
`validate` after elaboration also include plain integers, strings, the
enumerated literals, and elaborated node references: a field reference
carries the data `Prop_reset.validate` reads from it (`get_path()` and
`inst.width`). -/
inductive Value where
  | VBool (b : Bool)
  | VInt (n : Nat)
  | VStr (s : String)
  | VPrecedence (tag : Nat)
  | VUserEnum (tag : Nat)
  | VAccess (tag : Nat)
  | VOnRead (tag : Nat)
  | VOnWrite (tag : Nat)
  | VAddressing (tag : Nat)
  | VExpr (predicted : ValueKind) (id : Nat)
  | VFieldNode (path : String) (width : Nat)
  | VSignalNode (path : String)
deriving DecidableEq

/-- A component definition's property dict: an insertion-ordered mapping from
property name to stored value, with unique keys (a Python `dict`). -/
abbrev PropMap := List (String × Value)

/-- Lookup in a property dict (`comp_def.properties[k]` / `k in properties`). -/
def dictGet : PropMap → String → Option Value
  | [], _ => none
  | (k', v') :: rest, k => if k' = k then some v' else dictGet rest k

/-- Store into a property dict (`comp_def.properties[k] = v`), overwriting any
prior value under the same key. -/
def dictSet : PropMap → String → Value → PropMap
  | [], k, v => [(k, v)]
  | (k', v') :: rest, k, v =>
      if k' = k then (k, v) :: rest else (k', v') :: dictSet rest k v

/-- Delete a key from a property dict.  The source guards the deletion with a
membership test (`if opp in properties: del properties[opp]`), so deleting an
absent key is a no-op; since a Python dict holds each key at most once,
removing every occurrence coincides with removing the single entry. -/
def dictDel : PropMap → String → PropMap
  | [], _ => []
  | (k', v') :: rest, k =>
      if k' = k then dictDel rest k else (k', v') :: dictDel rest k

/-- The state a rule's `assign_value` mutates: the component definition's
class (`type(comp_def)`) and its property dict (`comp_def.properties`). -/
structure CompDef where
  kind : CompKind
  properties : PropMap
deriving DecidableEq

/-- The elaborated instance data read by default resolution and validation:
`node.inst.name`, `node.inst.inst_name`, `node.inst.width`,
`node.inst.external` and `node.inst.properties`. -/
structure Inst where
  name : String
  inst_name : String
  width : Nat
  external : Bool
  properties : PropMap
deriving DecidableEq

/-- An instance-tree node: its `inst` record plus the dotted path returned by
`node.get_path()`. -/
structure Node where
  inst : Inst
  path : String
deriving DecidableEq

/-- Which subclass side effect a rule's `assign_value` override performs after
the base class body (`super().assign_value(...)`) has stored the value:
`PropertyRuleBoolPair.assign_value` deletes the opposite property when
present; the four counter alias rules (`threshold`, `saturate`,
`incrthreshold`, `incrsaturate`) additionally store the identical value under
their canonical property name; every other rule inherits the base behavior
unchanged. -/
inductive RuleVariant where
  | base
  | boolPair (opposite : String)
  | aliasOf (canonical : String)
deriving DecidableEq

/-- Which `get_default` override a rule uses: the base static default, the
instance name (`Prop_name`), the instantiation width (`Prop_signalwidth`,
`Prop_fieldwidth`), the resolved `regwidth` property (`Prop_accesswidth`), or
the paired-boolean negation of the opposite property's explicit value
(`PropertyRuleBoolPair.get_default`). -/
inductive DefaultKind where
  | staticDefault
  | instName
  | instWidth
  | regwidthProp
  | oppositeBool (opposite : String)
deriving DecidableEq

/-- Which `validate` override a rule carries: no checks (the base class),
or the bespoke checks of `Prop_errextbus`, `Prop_next`, `Prop_reset`. -/
inductive ValidateKind where
  | noCheck
  | errextbusCheck
  | nextCheck
  | resetCheck
deriving DecidableEq

/-- A property rule: the per-class static attributes of the catalog plus tags
recording which method overrides the concrete class has.  One record per
`Prop_*` class; the `name` field is the class name with the `Prop_` prefix
stripped, exactly as `get_name` derives it. -/
structure PropertyRule where
  name : String
  bindable_to : List CompKind
  valid_types : List ValueKind
  default : Option Value
  dyn_assign_allowed : Bool
  mutex_group : Option String
  variant : RuleVariant
  defaultKind : DefaultKind
  validator : ValidateKind
deriving DecidableEq

/-- Outcomes that abort the current statement inside `assign_value`:
`msg.fatal` for a binding violation, `msg.fatal` for an incompatible
assignment, and the defensive `raise RuntimeError` when the candidate value is
none of the four recognized shapes.  None of these is a recoverable
(recorded-and-continue) diagnostic. -/
inductive AssignErr where
  | fatalBinding
  | fatalIncompatible
  | engineFault
deriving DecidableEq

/-- The `raise RuntimeError` engine fault reachable from `validate`. -/
inductive EngineFault where
  | runtimeFault
deriving DecidableEq

/-- The value-kind classification step of `PropertyRule.assign_value`: a bool
literal classifies as bool, a `PrecedenceType` literal as precedence, an
expression as the kind the expression collaborator predicts for it
(`value.predict_type()`), a user-enum literal as user enum; anything else is
an internal contract violation (`raise RuntimeError`), modelled as `none`. -/
def classify : Value → Option ValueKind
  | .VBool _ => some .VKBool
  | .VPrecedence _ => some .VKPrecedenceType
  | .VExpr k _ => some k
  | .VUserEnum _ => some .VKUserEnum
  | _ => none

/-- Modelled from the spec: the castability relation `is_castable(from, to)`
lives in the expressions module, which is not among the supplied sources.
The spec treats it as the expression collaborator's opaque relation deciding
whether a value of one kind may satisfy a property expecting another kind; it
is modelled here as the minimal reflexive instance, kind equality.  Theorems
about `assign_value` quantify over an arbitrary relation; this instance only
grounds concrete witnesses and counterexamples. -/
def is_castable_spec (a b : ValueKind) : Bool := a == b

/-- The subclass side effect that runs after the base `assign_value` body has
stored the value under the rule's own name (the `super().assign_value(...)`
pattern): paired-boolean rules delete the opposite key; alias rules store the
identical value under the canonical key as a raw dict write. -/
def applyVariant (r : PropertyRule) (p : PropMap) (v : Value) : PropMap :=
  match r.variant with
  | .base => p
  | .boolPair opp => dictDel p opp
  | .aliasOf c => dictSet p c v

/-- `PropertyRule.assign_value(comp_def, value, err_ctx)` together with the
subclass overrides, parametrized by the external castability relation:
  1. if the component class is not in `bindable_to`, `msg.fatal` aborts;
  2. the candidate value's kind is classified; an unrecognized shape raises
     `RuntimeError`;
  3. if the classified kind is castable to no entry of `valid_types`,
     `msg.fatal` aborts with the incompatible-assignment message;
  4. otherwise the value is stored under the rule's name and the variant side
     effect runs. -/
def assign_value (castable : ValueKind → ValueKind → Bool) (r : PropertyRule)
    (cd : CompDef) (v : Value) : Except AssignErr CompDef :=
  if r.bindable_to.contains cd.kind = true then
    match classify v with
    | none => .error .engineFault
    | some k =>
      if (r.valid_types.any fun t => castable k t) = true then
        .ok ⟨cd.kind, applyVariant r (dictSet cd.properties r.name v) v⟩
      else
        .error .fatalIncompatible
  else
    .error .fatalBinding

/-- Python truthiness of a stored value, as consumed by the `not` operator in
`PropertyRuleBoolPair.get_default`: booleans negate logically, numbers are
falsy exactly at zero, strings exactly when empty, and every other stored
object is truthy. -/
def truthy : Value → Bool
  | .VBool b => b
  | .VInt n => n != 0
  | .VStr s => s != ""
  | _ => true

/-
The concrete rule catalog: one record per `Prop_*` class, in source order.
Field order: name, bindable_to, valid_types, default, dyn_assign_allowed,
mutex_group, variant, defaultKind, validator.
-/

/-- `Prop_name` (5.2.1); `get_default` returns the instance name. -/
def Prop_name : PropertyRule :=
  ⟨"name", [.Addrmap, .Field, .Mem, .Reg, .Regfile, .Signal], [.VKStr],
    some (.VStr ""), true, none, .base, .instName, .noCheck⟩

/-- `Prop_desc` (5.2.1). -/
def Prop_desc : PropertyRule :=
  ⟨"desc", [.Addrmap, .Field, .Mem, .Reg, .Regfile, .Signal], [.VKStr],
    none, true, none, .base, .staticDefault, .noCheck⟩

/-- `Prop_dontcompare` (5.2.2). -/
def Prop_dontcompare : PropertyRule :=
  ⟨"dontcompare", [.Addrmap, .Reg, .Regfile, .Field], [.VKBool, .VKInt],
    some (.VBool false), true, some "O", .base, .staticDefault, .noCheck⟩

/-- `Prop_donttest` (5.2.2). -/
def Prop_donttest : PropertyRule :=
  ⟨"donttest", [.Addrmap, .Reg, .Regfile, .Field], [.VKBool, .VKInt],
    some (.VBool false), true, some "O", .base, .staticDefault, .noCheck⟩

/-- `Prop_ispresent` (5.3). -/
def Prop_ispresent : PropertyRule :=
  ⟨"ispresent", [.Addrmap, .Field, .Mem, .Reg, .Regfile, .Signal], [.VKBool],
    some (.VBool true), true, none, .base, .staticDefault, .noCheck⟩

/-- `Prop_errextbus`; validator checks 10.6.1-h. -/
def Prop_errextbus : PropertyRule :=
  ⟨"errextbus", [.Addrmap, .Reg, .Regfile], [.VKBool],
    some (.VBool false), false, none, .base, .staticDefault, .errextbusCheck⟩

/-- `Prop_hdl_path`. -/
def Prop_hdl_path : PropertyRule :=
  ⟨"hdl_path", [.Addrmap, .Reg, .Regfile], [.VKStr],
    none, true, none, .base, .staticDefault, .noCheck⟩

/-- `Prop_hdl_path_gate`. -/
def Prop_hdl_path_gate : PropertyRule :=
  ⟨"hdl_path_gate", [.Addrmap, .Reg, .Regfile], [.VKStr],
    none, true, none, .base, .staticDefault, .noCheck⟩

/-- `Prop_hdl_path_gate_slice`. -/
def Prop_hdl_path_gate_slice : PropertyRule :=
  ⟨"hdl_path_gate_slice", [.Addrmap, .Reg, .Regfile], [.VKArrayStr],
    none, true, none, .base, .staticDefault, .noCheck⟩

/-- `Prop_hdl_path_slice`. -/
def Prop_hdl_path_slice : PropertyRule :=
  ⟨"hdl_path_slice", [.Addrmap, .Reg, .Regfile], [.VKArrayStr],
    none, true, none, .base, .staticDefault, .noCheck⟩

/-- `Prop_signalwidth` (8.2); `get_default` inherits the instantiation width. -/
def Prop_signalwidth : PropertyRule :=
  ⟨"signalwidth", [.Signal], [.VKInt],
    none, false, none, .base, .instWidth, .noCheck⟩

/-- `Prop_sync` (8.2); paired-boolean opposite of `async`. -/
def Prop_sync : PropertyRule :=
  ⟨"sync", [.Signal], [.VKBool],
    some (.VBool true), true, some "N", .boolPair "async", .oppositeBool "async", .noCheck⟩

/-- `Prop_async` (8.2); paired-boolean opposite of `sync`. -/
def Prop_async : PropertyRule :=
  ⟨"async", [.Signal], [.VKBool],
    some (.VBool false), true, some "N", .boolPair "sync", .oppositeBool "sync", .noCheck⟩

/-- `Prop_cpuif_reset` (8.2). -/
def Prop_cpuif_reset : PropertyRule :=
  ⟨"cpuif_reset", [.Signal], [.VKBool],
    some (.VBool false), true, none, .base, .staticDefault, .noCheck⟩

/-- `Prop_field_reset` (8.2). -/
def Prop_field_reset : PropertyRule :=
  ⟨"field_reset", [.Signal], [.VKBool],
    some (.VBool false), true, none, .base, .staticDefault, .noCheck⟩

/-- `Prop_activelow` (8.2). -/
def Prop_activelow : PropertyRule :=
  ⟨"activelow", [.Signal], [.VKBool],
    some (.VBool false), true, some "A", .base, .staticDefault, .noCheck⟩

/-- `Prop_activehigh` (8.2). -/
def Prop_activehigh : PropertyRule :=
  ⟨"activehigh", [.Signal], [.VKBool],
    some (.VBool false), true, some "A", .base, .staticDefault, .noCheck⟩

/-- `Prop_hw` (9.4); default is `AccessType.rw` (tag 0). -/
def Prop_hw : PropertyRule :=
  ⟨"hw", [.Field], [.VKAccessType],
    some (.VAccess 0), false, none, .base, .staticDefault, .noCheck⟩

/-- `Prop_sw` (9.4); default is `AccessType.rw` (tag 0). -/
def Prop_sw : PropertyRule :=
  ⟨"sw", [.Field, .Mem], [.VKAccessType],
    some (.VAccess 0), true, none, .base, .staticDefault, .noCheck⟩

/-- `Prop_next` (9.5); validator checks 9.5.1-e self reference. -/
def Prop_next : PropertyRule :=
  ⟨"next", [.Field], [.VKRefField],
    none, true, none, .base, .staticDefault, .nextCheck⟩

/-- `Prop_reset` (9.5); validator checks 9.5.1-c, 9.5.1-d, 9.5.1-e. -/
def Prop_reset : PropertyRule :=
  ⟨"reset", [.Field], [.VKInt, .VKRefField],
    none, true, none, .base, .staticDefault, .resetCheck⟩

/-- `Prop_resetsignal` (9.5). -/
def Prop_resetsignal : PropertyRule :=
  ⟨"resetsignal", [.Field], [.VKRefSignal],
    none, true, none, .base, .staticDefault, .noCheck⟩

/-- `Prop_rclr` (9.6). -/
def Prop_rclr : PropertyRule :=
  ⟨"rclr", [.Field], [.VKBool],
    some (.VBool false), true, some "P", .base, .staticDefault, .noCheck⟩

/-- `Prop_rset` (9.6). -/
def Prop_rset : PropertyRule :=
  ⟨"rset", [.Field], [.VKBool],
    some (.VBool false), true, some "P", .base, .staticDefault, .noCheck⟩

/-- `Prop_onread` (9.6). -/
def Prop_onread : PropertyRule :=
  ⟨"onread", [.Field], [.VKOnReadType],
    none, true, some "P", .base, .staticDefault, .noCheck⟩

/-- `Prop_woset` (9.6). -/
def Prop_woset : PropertyRule :=
  ⟨"woset", [.Field], [.VKBool],
    some (.VBool false), true, some "B", .base, .staticDefault, .noCheck⟩

/-- `Prop_woclr` (9.6). -/
def Prop_woclr : PropertyRule :=
  ⟨"woclr", [.Field], [.VKBool],
    some (.VBool false), true, some "B", .base, .staticDefault, .noCheck⟩

/-- `Prop_onwrite` (9.6). -/
def Prop_onwrite : PropertyRule :=
  ⟨"onwrite", [.Field], [.VKOnWriteType],
    none, true, some "B", .base, .staticDefault, .noCheck⟩

/-- `Prop_swwe`. -/
def Prop_swwe : PropertyRule :=
  ⟨"swwe", [.Field], [.VKBool],
    some (.VBool false), true, some "R", .base, .staticDefault, .noCheck⟩

/-- `Prop_swwel`. -/
def Prop_swwel : PropertyRule :=
  ⟨"swwel", [.Field], [.VKBool],
    some (.VBool false), true, some "R", .base, .staticDefault, .noCheck⟩

/-- `Prop_swmod` (9.6). -/
def Prop_swmod : PropertyRule :=
  ⟨"swmod", [.Field], [.VKBool],
    some (.VBool false), true, none, .base, .staticDefault, .noCheck⟩

/-- `Prop_swacc` (9.6). -/
def Prop_swacc : PropertyRule :=
  ⟨"swacc", [.Field], [.VKBool],
    some (.VBool false), true, none, .base, .staticDefault, .noCheck⟩

/-- `Prop_singlepulse` (9.6). -/
def Prop_singlepulse : PropertyRule :=
  ⟨"singlepulse", [.Field], [.VKBool],
    some (.VBool false), true, none, .base, .staticDefault, .noCheck⟩

/-- `Prop_we`. -/
def Prop_we : PropertyRule :=
  ⟨"we", [.Field], [.VKBool],
    some (.VBool false), true, some "C", .base, .staticDefault, .noCheck⟩

/-- `Prop_wel`. -/
def Prop_wel : PropertyRule :=
  ⟨"wel", [.Field], [.VKBool],
    some (.VBool false), true, some "C", .base, .staticDefault, .noCheck⟩

/-- `Prop_anded`. -/
def Prop_anded : PropertyRule :=
  ⟨"anded", [.Field], [.VKBool],
    some (.VBool false), true, none, .base, .staticDefault, .noCheck⟩

/-- `Prop_ored`. -/
def Prop_ored : PropertyRule :=
  ⟨"ored", [.Field], [.VKBool],
    some (.VBool false), true, none, .base, .staticDefault, .noCheck⟩

/-- `Prop_xored`. -/
def Prop_xored : PropertyRule :=
  ⟨"xored", [.Field], [.VKBool],
    some (.VBool false), true, none, .base, .staticDefault, .noCheck⟩

/-- `Prop_fieldwidth`; `get_default` inherits the instantiation width. -/
def Prop_fieldwidth : PropertyRule :=
  ⟨"fieldwidth", [.Field], [.VKInt],
    none, false, none, .base, .instWidth, .noCheck⟩

/-- `Prop_hwclr`. -/
def Prop_hwclr : PropertyRule :=
  ⟨"hwclr", [.Field], [.VKBool],
    some (.VBool false), true, none, .base, .staticDefault, .noCheck⟩

/-- `Prop_hwset`. -/
def Prop_hwset : PropertyRule :=
  ⟨"hwset", [.Field], [.VKBool],
    some (.VBool false), true, none, .base, .staticDefault, .noCheck⟩

/-- `Prop_hwenable`. -/
def Prop_hwenable : PropertyRule :=
  ⟨"hwenable", [.Field], [.VKRefField],
    none, true, some "D", .base, .staticDefault, .noCheck⟩

/-- `Prop_hwmask`. -/
def Prop_hwmask : PropertyRule :=
  ⟨"hwmask", [.Field], [.VKRefField],
    none, true, some "D", .base, .staticDefault, .noCheck⟩

/-- `Prop_counter`. -/
def Prop_counter : PropertyRule :=
  ⟨"counter", [.Field], [.VKBool],
    some (.VBool false), true, some "E", .base, .staticDefault, .noCheck⟩

/-- `Prop_threshold`: alias of `incrthreshold`; `assign_value` also stores the
value under `incrthreshold`. -/
def Prop_threshold : PropertyRule :=
  ⟨"threshold", [.Field], [.VKBool, .VKInt, .VKRefSignal],
    some (.VBool false), true, some "incrthreshold alias",
    .aliasOf "incrthreshold", .staticDefault, .noCheck⟩

/-- `Prop_saturate`: alias of `incrsaturate`; `assign_value` also stores the
value under `incrsaturate`. -/
def Prop_saturate : PropertyRule :=
  ⟨"saturate", [.Field], [.VKBool, .VKInt, .VKRefSignal],
    some (.VBool false), true, some "incrsaturate alias",
    .aliasOf "incrsaturate", .staticDefault, .noCheck⟩

/-- `Prop_incrthreshold`: its `assign_value` writes the `incrthreshold` key,
its own name, a second time. -/
def Prop_incrthreshold : PropertyRule :=
  ⟨"incrthreshold", [.Field], [.VKBool, .VKInt, .VKRefSignal],
    some (.VBool false), true, some "incrthreshold alias",
    .aliasOf "incrthreshold", .staticDefault, .noCheck⟩

/-- `Prop_incrsaturate`: its `assign_value` writes the `incrsaturate` key,
its own name, a second time. -/
def Prop_incrsaturate : PropertyRule :=
  ⟨"incrsaturate", [.Field], [.VKBool, .VKInt, .VKRefSignal],
    some (.VBool false), true, some "incrsaturate alias",
    .aliasOf "incrsaturate", .staticDefault, .noCheck⟩

/-- `Prop_overflow`. -/
def Prop_overflow : PropertyRule :=
  ⟨"overflow", [.Field], [.VKBool],
    some (.VBool false), true, none, .base, .staticDefault, .noCheck⟩

/-- `Prop_underflow`. -/
def Prop_underflow : PropertyRule :=
  ⟨"underflow", [.Field], [.VKBool],
    some (.VBool false), true, none, .base, .staticDefault, .noCheck⟩

/-- `Prop_incr`. -/
def Prop_incr : PropertyRule :=
  ⟨"incr", [.Field], [.VKRefSignal],
    none, true, none, .base, .staticDefault, .noCheck⟩

/-- `Prop_incrvalue`. -/
def Prop_incrvalue : PropertyRule :=
  ⟨"incrvalue", [.Field], [.VKInt, .VKRefSignal],
    none, true, some "F", .base, .staticDefault, .noCheck⟩

/-- `Prop_incrwidth`. -/
def Prop_incrwidth : PropertyRule :=
  ⟨"incrwidth", [.Field], [.VKInt],
    none, true, some "F", .base, .staticDefault, .noCheck⟩

/-- `Prop_decrvalue`. -/
def Prop_decrvalue : PropertyRule :=
  ⟨"decrvalue", [.Field], [.VKInt, .VKRefSignal],
    none, true, some "G", .base, .staticDefault, .noCheck⟩

/-- `Prop_decr`. -/
def Prop_decr : PropertyRule :=
  ⟨"decr", [.Field], [.VKRefSignal],
    none, true, none, .base, .staticDefault, .noCheck⟩

/-- `Prop_decrwidth`. -/
def Prop_decrwidth : PropertyRule :=
  ⟨"decrwidth", [.Field], [.VKInt],
    none, true, some "G", .base, .staticDefault, .noCheck⟩

/-- `Prop_decrsaturate`. -/
def Prop_decrsaturate : PropertyRule :=
  ⟨"decrsaturate", [.Field], [.VKBool, .VKInt, .VKRefSignal],
    some (.VBool false), true, none, .base, .staticDefault, .noCheck⟩

/-- `Prop_decrthreshold`. -/
def Prop_decrthreshold : PropertyRule :=
  ⟨"decrthreshold", [.Field], [.VKBool, .VKInt, .VKRefSignal],
    some (.VBool false), true, none, .base, .staticDefault, .noCheck⟩

/-- `Prop_intr`. -/
def Prop_intr : PropertyRule :=
  ⟨"intr", [.Field], [.VKBool],
    some (.VBool false), true, some "E", .base, .staticDefault, .noCheck⟩

/-- `Prop_enable`. -/
def Prop_enable : PropertyRule :=
  ⟨"enable", [.Field], [.VKRefField],
    none, true, some "J", .base, .staticDefault, .noCheck⟩

/-- `Prop_mask`. -/
def Prop_mask : PropertyRule :=
  ⟨"mask", [.Field], [.VKRefField],
    none, true, some "J", .base, .staticDefault, .noCheck⟩

/-- `Prop_haltenable`. -/
def Prop_haltenable : PropertyRule :=
  ⟨"haltenable", [.Field], [.VKRefField],
    none, true, some "K", .base, .staticDefault, .noCheck⟩

/-- `Prop_haltmask`. -/
def Prop_haltmask : PropertyRule :=
  ⟨"haltmask", [.Field], [.VKRefField],
    none, true, some "K", .base, .staticDefault, .noCheck⟩

/-- `Prop_sticky`. -/
def Prop_sticky : PropertyRule :=
  ⟨"sticky", [.Field], [.VKBool],
    some (.VBool false), true, some "I", .base, .staticDefault, .noCheck⟩

/-- `Prop_stickybit`. -/
def Prop_stickybit : PropertyRule :=
  ⟨"stickybit", [.Field], [.VKBool],
    some (.VBool false), true, some "I", .base, .staticDefault, .noCheck⟩

/-- `Prop_encode`. -/
def Prop_encode : PropertyRule :=
  ⟨"encode", [.Field], [.VKUserEnum],
    none, true, none, .base, .staticDefault, .noCheck⟩

/-- `Prop_precedence`; default is `PrecedenceType.sw` (tag 0). -/
def Prop_precedence : PropertyRule :=
  ⟨"precedence", [.Field], [.VKPrecedenceType],
    some (.VPrecedence 0), true, none, .base, .staticDefault, .noCheck⟩

/-- `Prop_paritycheck`. -/
def Prop_paritycheck : PropertyRule :=
  ⟨"paritycheck", [.Field], [.VKBool],
    some (.VBool false), false, none, .base, .staticDefault, .noCheck⟩

/-- `Prop_regwidth`: static default 32, no `get_default` override. -/
def Prop_regwidth : PropertyRule :=
  ⟨"regwidth", [.Reg], [.VKInt],
    some (.VInt 32), false, none, .base, .staticDefault, .noCheck⟩

/-- `Prop_accesswidth` (10.6.1.d); `get_default` returns
`node.get_property("regwidth")`. -/
def Prop_accesswidth : PropertyRule :=
  ⟨"accesswidth", [.Reg], [.VKInt],
    none, true, none, .base, .regwidthProp, .noCheck⟩

/-- `Prop_shared`. -/
def Prop_shared : PropertyRule :=
  ⟨"shared", [.Reg], [.VKBool],
    some (.VBool false), false, none, .base, .staticDefault, .noCheck⟩

/-- `Prop_mementries`. -/
def Prop_mementries : PropertyRule :=
  ⟨"mementries", [.Mem], [.VKInt],
    some (.VInt 1), false, none, .base, .staticDefault, .noCheck⟩

/-- `Prop_memwidth`. -/
def Prop_memwidth : PropertyRule :=
  ⟨"memwidth", [.Mem], [.VKInt],
    some (.VInt 32), false, none, .base, .staticDefault, .noCheck⟩

/-- `Prop_alignment`; the default is intentionally left unset. -/
def Prop_alignment : PropertyRule :=
  ⟨"alignment", [.Addrmap, .Regfile], [.VKInt],
    none, false, none, .base, .staticDefault, .noCheck⟩

/-- `Prop_sharedextbus`. -/
def Prop_sharedextbus : PropertyRule :=
  ⟨"sharedextbus", [.Addrmap, .Regfile], [.VKBool],
    some (.VBool false), false, none, .base, .staticDefault, .noCheck⟩

/-- `Prop_bigendian`. -/
def Prop_bigendian : PropertyRule :=
  ⟨"bigendian", [.Addrmap], [.VKBool],
    some (.VBool false), true, some "L", .base, .staticDefault, .noCheck⟩

/-- `Prop_littleendian`. -/
def Prop_littleendian : PropertyRule :=
  ⟨"littleendian", [.Addrmap], [.VKBool],
    some (.VBool false), true, some "L", .base, .staticDefault, .noCheck⟩

/-- `Prop_addressing`; default is `AddressingType.regalign` (tag 0). -/
def Prop_addressing : PropertyRule :=
  ⟨"addressing", [.Addrmap], [.VKAddressingType],
    some (.VAddressing 0), false, none, .base, .staticDefault, .noCheck⟩

/-- `Prop_rsvdset`. -/
def Prop_rsvdset : PropertyRule :=
  ⟨"rsvdset", [.Addrmap], [.VKBool],
    some (.VBool false), false, some "Q", .base, .staticDefault, .noCheck⟩

/-- `Prop_rsvdsetX`. -/
def Prop_rsvdsetX : PropertyRule :=
  ⟨"rsvdsetX", [.Addrmap], [.VKBool],
    some (.VBool false), false, some "Q", .base, .staticDefault, .noCheck⟩

/-- `Prop_msb0`; paired-boolean opposite of `lsb0`. -/
def Prop_msb0 : PropertyRule :=
  ⟨"msb0", [.Addrmap], [.VKBool],
    some (.VBool false), false, some "M", .boolPair "lsb0", .oppositeBool "lsb0", .noCheck⟩

/-- `Prop_lsb0`; paired-boolean opposite of `msb0`. -/
def Prop_lsb0 : PropertyRule :=
  ⟨"lsb0", [.Addrmap], [.VKBool],
    some (.VBool true), false, some "M", .boolPair "msb0", .oppositeBool "msb0", .noCheck⟩

/-- `Prop_bridge`. -/
def Prop_bridge : PropertyRule :=
  ⟨"bridge", [.Addrmap], [.VKBool],
    some (.VBool false), false, none, .base, .staticDefault, .noCheck⟩

/-- The built-in rule catalog discovered by `PropertyRuleBook`: every
`Prop_*` subclass of `PropertyRule`, instantiated once, in source order. -/
def rdl_properties : List PropertyRule :=
  [Prop_name, Prop_desc, Prop_dontcompare, Prop_donttest, Prop_ispresent,
   Prop_errextbus, Prop_hdl_path, Prop_hdl_path_gate, Prop_hdl_path_gate_slice,
   Prop_hdl_path_slice, Prop_signalwidth, Prop_sync, Prop_async,
   Prop_cpuif_reset, Prop_field_reset, Prop_activelow, Prop_activehigh,
   Prop_hw, Prop_sw, Prop_next, Prop_reset, Prop_resetsignal, Prop_rclr,
   Prop_rset, Prop_onread, Prop_woset, Prop_woclr, Prop_onwrite, Prop_swwe,
   Prop_swwel, Prop_swmod, Prop_swacc, Prop_singlepulse, Prop_we, Prop_wel,
   Prop_anded, Prop_ored, Prop_xored, Prop_fieldwidth, Prop_hwclr, Prop_hwset,
   Prop_hwenable, Prop_hwmask, Prop_counter, Prop_threshold, Prop_saturate,
   Prop_incrthreshold, Prop_incrsaturate, Prop_overflow, Prop_underflow,
   Prop_incr, Prop_incrvalue, Prop_incrwidth, Prop_decrvalue, Prop_decr,
   Prop_decrwidth, Prop_decrsaturate, Prop_decrthreshold, Prop_intr,
   Prop_enable, Prop_mask, Prop_haltenable, Prop_haltmask, Prop_sticky,
   Prop_stickybit, Prop_encode, Prop_precedence, Prop_paritycheck,
   Prop_regwidth, Prop_accesswidth, Prop_shared, Prop_mementries,
   Prop_memwidth, Prop_alignment, Prop_sharedextbus, Prop_bigendian,
   Prop_littleendian, Prop_addressing, Prop_rsvdset, Prop_rsvdsetX,
   Prop_msb0, Prop_lsb0, Prop_bridge]

/-- Modelled from the spec: the `get_property("regwidth")` call inside
`Prop_accesswidth.get_default` goes through the node module, which is not
among the supplied sources.  Per the spec, a node query returns the
explicitly assigned value when present and otherwise triggers the rule's
default resolution; `Prop_regwidth` does not override `get_default`, so its
default resolution is its static default, 32. -/
def get_property_regwidth (node : Node) : Option Value :=
  match dictGet node.inst.properties "regwidth" with
  | some v => some v
  | none => Prop_regwidth.default

/-- The `get_default(node)` overrides, state-threaded: the result value paired
with the instance property dict after the call.  Every branch of every
override only reads (`self.default`, `node.inst.name`, `node.inst.width`,
`node.get_property`, `node.inst.properties`), so each branch returns the dict
it was given. -/
def get_default_st (r : PropertyRule) (node : Node) : Option Value × PropMap :=
  match r.defaultKind with
  | .staticDefault => (r.default, node.inst.properties)
  | .instName => (some (.VStr node.inst.name), node.inst.properties)
  | .instWidth => (some (.VInt node.inst.width), node.inst.properties)
  | .regwidthProp => (get_property_regwidth node, node.inst.properties)
  | .oppositeBool opp =>
      match dictGet node.inst.properties opp with
      | some v => (some (.VBool (!truthy v)), node.inst.properties)
      | none => (r.default, node.inst.properties)

/-- `get_default(node)`: the value component of the state-threaded form. -/
def get_default (r : PropertyRule) (node : Node) : Option Value :=
  (get_default_st r node).1

/-- Modelled from the spec: `Node.get_property(name)` lives in the node
module, which is not among the supplied sources.  Per the spec, it returns
the explicitly assigned value when present in the instance property dict and
otherwise triggers the rule's default resolution. -/
def get_property (r : PropertyRule) (node : Node) : Option Value :=
  match dictGet node.inst.properties r.name with
  | some v => some v
  | none => get_default r node

/-- Recoverable message recorded by `Prop_errextbus.validate` (10.6.1-h). -/
def msg_errextbus_not_external : String :=
  "errextbus is set to true but the instance is not external"

/-- Recoverable message recorded by `Prop_next.validate` (9.5.1-e). -/
def msg_next_self_reference : String :=
  "field cannot reference itself in next property"

/-- Recoverable message recorded by `Prop_reset.validate` (9.5.1-c). -/
def msg_reset_exceeds_width : String :=
  "the reset value of the field exceeds its width"

/-- Recoverable message recorded by `Prop_reset.validate` (9.5.1-d). -/
def msg_reset_size_mismatch : String :=
  "field references another field as its reset value but they are not the same size"

/-- Recoverable message recorded by `Prop_reset.validate` (9.5.1-e). -/
def msg_reset_self_reference : String :=
  "field cannot reference itself in reset property"

/-- Python `value == True` as used by `Prop_errextbus.validate`: true for the
bool literal `True` and for the integer 1, false for every other value. -/
def pyEqTrue : Value → Bool
  | .VBool b => b
  | .VInt n => n == 1
  | _ => false

/-- `validate(node, value)` with the subclass overrides.  The base class
performs no checks.  `Prop_errextbus` records an error when the value is true
on a non-external instance.  `Prop_next` records an error when the referenced
field is the node itself (a non-node value would crash the `get_path()`
attribute access, an engine fault).  `Prop_reset` checks an integer value
against the field width, checks a referenced field for equal width and
self-reference, and raises `RuntimeError` for any other value shape.
Recorded messages are recoverable: they are returned in order and processing
continues. -/
def validate (r : PropertyRule) (node : Node) (v : Value) :
    Except EngineFault (List String) :=
  match r.validator with
  | .noCheck => .ok []
  | .errextbusCheck =>
      if node.inst.external = false ∧ pyEqTrue v = true then
        .ok [msg_errextbus_not_external]
      else
        .ok []
  | .nextCheck =>
      match v with
      | .VFieldNode p _ =>
          if node.path = p then .ok [msg_next_self_reference] else .ok []
      | _ => .error .runtimeFault
  | .resetCheck =>
      match v with
      | .VInt n =>
          if n ≥ 2 ^ node.inst.width then
            .ok [msg_reset_exceeds_width]
          else
            .ok []
      | .VFieldNode p w =>
          .ok ((if node.inst.width ≠ w then [msg_reset_size_mismatch] else [])
            ++ (if node.path = p then [msg_reset_self_reference] else []))
      | _ => .error .runtimeFault


/-
Helper lemmas about the property dict operations and the assignment
operation.
-/

theorem dictGet_set_self (m : PropMap) (k : String) (v : Value) :
    dictGet (dictSet m k v) k = some v := by
  induction m with
  | nil => simp [dictSet, dictGet]
  | cons hd tl ih =>
      cases hd with
      | mk kh vh =>
        by_cases hk : kh = k
        · simp [dictSet, dictGet, hk]
        · simp [dictSet, dictGet, hk, ih]

theorem dictGet_set_ne (m : PropMap) (k k' : String) (v : Value)
    (h : k' ≠ k) : dictGet (dictSet m k v) k' = dictGet m k' := by
  induction m with
  | nil => simp [dictSet, dictGet, Ne.symm h]
  | cons hd tl ih =>
      cases hd with
      | mk kh vh =>
        by_cases hk : kh = k
        · subst hk
          simp [dictSet, dictGet, Ne.symm h]
        · simp only [dictSet, if_neg hk, dictGet]
          by_cases hk' : kh = k'
          · simp [hk']
          · simp [hk', ih]

theorem dictGet_del_self (m : PropMap) (k : String) :
    dictGet (dictDel m k) k = none := by
  induction m with
  | nil => simp [dictDel, dictGet]
  | cons hd tl ih =>
      cases hd with
      | mk kh vh =>
        by_cases hk : kh = k
        · simp [dictDel, hk, ih]
        · simp [dictDel, dictGet, hk, ih]

theorem dictGet_del_ne (m : PropMap) (k k' : String) (h : k' ≠ k) :
    dictGet (dictDel m k) k' = dictGet m k' := by
  induction m with
  | nil => simp [dictDel]
  | cons hd tl ih =>
      cases hd with
      | mk kh vh =>
        by_cases hk : kh = k
        · subst hk
          simp [dictDel, dictGet, Ne.symm h, ih]
        · simp only [dictDel, if_neg hk, dictGet]
          by_cases hk' : kh = k'
          · simp [hk']
          · simp [hk', ih]

/-- Characterization of a successful assignment: it requires exactly the
binding check, the classification, and the castability check to pass, and
the resulting component definition is the input dict with the value stored
under the rule's own name followed by the variant side effect. -/
theorem assign_value_ok_iff {castable : ValueKind → ValueKind → Bool}
    {r : PropertyRule} {cd : CompDef} {v : Value} {cd' : CompDef} :
    assign_value castable r cd v = Except.ok cd' ↔
      r.bindable_to.contains cd.kind = true ∧
      ∃ k, classify v = some k ∧
        (r.valid_types.any fun t => castable k t) = true ∧
        cd' = ⟨cd.kind, applyVariant r (dictSet cd.properties r.name v) v⟩ := by
  constructor
  · intro h
    unfold assign_value at h
    split at h
    · rename_i hb
      split at h
      · exact absurd h (by simp)
      · rename_i k hc
        split at h
        · rename_i ha
          exact ⟨hb, k, hc, ha, (Except.ok.inj h).symm⟩
        · exact absurd h (by simp)
    · exact absurd h (by simp)
  · rintro ⟨hb, k, hc, ha, rfl⟩
    unfold assign_value
    rw [if_pos hb, hc]
    simp [ha]

/-- The catalog-wide fact that every paired-boolean rule names an opposite
property distinct from its own name, as a decidable scan. -/
theorem catalog_boolPair_spec :
    (rdl_properties.all fun r =>
      match r.variant with
      | RuleVariant.boolPair opp => decide (opp ≠ r.name)
      | _ => true) = true := by decide

/-- Every paired-boolean rule in the catalog names an opposite property
distinct from its own name. -/
theorem catalog_boolPair_opposite_ne (r : PropertyRule)
    (hr : r ∈ rdl_properties) (opp : String)
    (hv : r.variant = RuleVariant.boolPair opp) : opp ≠ r.name := by
  have h := catalog_boolPair_spec
  rw [List.all_eq_true] at h
  have h2 := h r hr
  rw [hv] at h2
  simpa using h2

/-- The property dict after the call never changes: every branch of every
`get_default` override only reads the instance. -/
theorem get_default_st_snd (r : PropertyRule) (node : Node) :
    (get_default_st r node).2 = node.inst.properties := by
  unfold get_default_st
  cases r.defaultKind with
  | oppositeBool opp =>
      cases h : dictGet node.inst.properties opp <;> simp [h]
  | staticDefault => simp
  | instName => simp
  | instWidth => simp
  | regwidthProp => simp

/-
Claim theorems.
-/

/-- C1, counterexample: for `Prop_name` (accepted kinds `[str]`) on a field
definition, a precedence literal classifies to a kind castable to none of the
accepted kinds, and `assign_value` then raises the FATAL
incompatible-assignment diagnostic, aborting the statement with nothing
stored — not a recoverable recorded error after which compilation continues,
as the claim states. -/
theorem c1_counterexample :
    assign_value is_castable_spec Prop_name ⟨CompKind.Field, []⟩
      (Value.VPrecedence 0) = Except.error AssignErr.fatalIncompatible := by rfl

/-- C1, amended: for every catalog rule and every candidate value whose kind
classifies, on an entity kind the rule can bind to: if the classified kind is
castable to none of the accepted kinds, `assign_value` raises a FATAL
diagnostic (the statement aborts and nothing is stored); if it is castable to
at least one, the assignment raises no error and stores the value under the
rule's name. -/
theorem c1_incompatible_is_fatal (castable : ValueKind → ValueKind → Bool)
    (r : PropertyRule) (hr : r ∈ rdl_properties) (cd : CompDef) (v : Value)
    (k : ValueKind) (hb : r.bindable_to.contains cd.kind = true)
    (hc : classify v = some k) :
    ((r.valid_types.any fun t => castable k t) = false →
      assign_value castable r cd v = Except.error AssignErr.fatalIncompatible) ∧
    ((r.valid_types.any fun t => castable k t) = true →
      ∃ cd', assign_value castable r cd v = Except.ok cd' ∧
        dictGet cd'.properties r.name = some v) := by
  constructor
  · intro ha
    unfold assign_value
    rw [if_pos hb, hc]
    simp [ha]
  · intro ha
    refine ⟨⟨cd.kind, applyVariant r (dictSet cd.properties r.name v) v⟩,
      assign_value_ok_iff.mpr ⟨hb, k, hc, ha, rfl⟩, ?_⟩
    cases hv : r.variant with
    | base => simp [applyVariant, hv, dictGet_set_self]
    | boolPair opp =>
        have hne := catalog_boolPair_opposite_ne r hr opp hv
        have h1 := dictGet_del_ne (dictSet cd.properties r.name v) opp r.name
          (Ne.symm hne)
        simp [applyVariant, hv, h1, dictGet_set_self]
    | aliasOf c =>
        by_cases hcn : c = r.name
        · subst hcn
          simp [applyVariant, hv, dictGet_set_self]
        · have h1 := dictGet_set_ne (dictSet cd.properties r.name v) c r.name v
            (Ne.symm hcn)
          simp [applyVariant, hv, h1, dictGet_set_self]

/-- C1, witness: `Prop_ispresent` on a field with a bool literal. -/
theorem c1_witness :
    Prop_ispresent ∈ rdl_properties ∧
    Prop_ispresent.bindable_to.contains CompKind.Field = true ∧
    classify (Value.VBool true) = some ValueKind.VKBool ∧
    (((Prop_ispresent.valid_types.any fun t =>
          is_castable_spec ValueKind.VKBool t) = false →
        assign_value is_castable_spec Prop_ispresent ⟨CompKind.Field, []⟩
          (Value.VBool true) = Except.error AssignErr.fatalIncompatible) ∧
      ((Prop_ispresent.valid_types.any fun t =>
          is_castable_spec ValueKind.VKBool t) = true →
        ∃ cd', assign_value is_castable_spec Prop_ispresent ⟨CompKind.Field, []⟩
            (Value.VBool true) = Except.ok cd' ∧
          dictGet cd'.properties Prop_ispresent.name = some (Value.VBool true))) :=
  ⟨by decide, by decide, by rfl,
    c1_incompatible_is_fatal is_castable_spec Prop_ispresent (by decide)
      ⟨CompKind.Field, []⟩ (Value.VBool true) ValueKind.VKBool (by decide) (by rfl)⟩

/-- C2, counterexample: a register node declared 16 bits wide with neither
`regwidth` nor `accesswidth` explicitly assigned resolves `accesswidth` to
32 (the static default of `regwidth`), not to 16 as the claim states. -/
theorem c2_counterexample :
    get_property Prop_accesswidth ⟨⟨"r1", "r1", 16, false, []⟩, "top.r1"⟩
      = some (Value.VInt 32) ∧
    (some (Value.VInt 32) : Option Value) ≠ some (Value.VInt 16) :=
  ⟨by rfl, by decide⟩

/-- C2, amended: default resolution of `accesswidth` returns the resolved
`regwidth` property, not the declared width; it returns 16 exactly when
`regwidth` was explicitly assigned 16 (and with `regwidth` unset it returns
the static default 32). -/
theorem c2_accesswidth_follows_regwidth (node : Node)
    (ha : dictGet node.inst.properties "accesswidth" = none)
    (hg : dictGet node.inst.properties "regwidth" = some (Value.VInt 16)) :
    get_property Prop_accesswidth node = some (Value.VInt 16) := by
  simp [get_property, Prop_accesswidth, ha, get_default, get_default_st,
    get_property_regwidth, hg]

/-- C2, witness: a register node with `regwidth` explicitly 16. -/
theorem c2_witness :
    dictGet [("regwidth", Value.VInt 16)] "accesswidth" = none ∧
    dictGet [("regwidth", Value.VInt 16)] "regwidth" = some (Value.VInt 16) ∧
    get_property Prop_accesswidth
      ⟨⟨"r1", "r1", 16, false, [("regwidth", Value.VInt 16)]⟩, "top.r1"⟩
      = some (Value.VInt 16) :=
  ⟨by decide, by decide,
    c2_accesswidth_follows_regwidth
      ⟨⟨"r1", "r1", 16, false, [("regwidth", Value.VInt 16)]⟩, "top.r1"⟩
      (by decide) (by decide)⟩

/-- C3, counterexample: assigning `threshold := true` stores true under both
`threshold` and `incrthreshold`, but a later assignment
`incrthreshold := false` updates only `incrthreshold`, so afterwards the two
names map to different values — the pair diverges, contrary to the claim. -/
theorem c3_counterexample :
    assign_value is_castable_spec Prop_threshold ⟨CompKind.Field, []⟩
        (Value.VBool true)
      = Except.ok ⟨CompKind.Field,
          [("threshold", Value.VBool true), ("incrthreshold", Value.VBool true)]⟩ ∧
    assign_value is_castable_spec Prop_incrthreshold
        ⟨CompKind.Field,
          [("threshold", Value.VBool true), ("incrthreshold", Value.VBool true)]⟩
        (Value.VBool false)
      = Except.ok ⟨CompKind.Field,
          [("threshold", Value.VBool true), ("incrthreshold", Value.VBool false)]⟩ ∧
    dictGet [("threshold", Value.VBool true), ("incrthreshold", Value.VBool false)]
        "threshold"
      ≠ dictGet [("threshold", Value.VBool true), ("incrthreshold", Value.VBool false)]
        "incrthreshold" :=
  ⟨by rfl, by rfl, by decide⟩

/-- C3, amended: immediately after a successful assignment through an alias
property, the name assigned and its canonical name both map to the assigned
value; the invariant holds per assignment only, since assignments to the
canonical name do not write the alias surface name back. -/
theorem c3_alias_assignment_agrees (castable : ValueKind → ValueKind → Bool)
    (r : PropertyRule) (_hr : r ∈ rdl_properties) (c : String)
    (hv : r.variant = RuleVariant.aliasOf c) (cd : CompDef) (v : Value)
    (cd' : CompDef) (h : assign_value castable r cd v = Except.ok cd') :
    dictGet cd'.properties r.name = some v ∧ dictGet cd'.properties c = some v := by
  obtain ⟨hb, k, hc, ha, rfl⟩ := assign_value_ok_iff.mp h
  constructor
  · by_cases hcn : c = r.name
    · subst hcn
      simp [applyVariant, hv, dictGet_set_self]
    · have h1 := dictGet_set_ne (dictSet cd.properties r.name v) c r.name v
        (Ne.symm hcn)
      simp [applyVariant, hv, h1, dictGet_set_self]
  · simp [applyVariant, hv, dictGet_set_self]

/-- C3, witness: `saturate` assigned on a fresh field definition. -/
theorem c3_witness :
    Prop_saturate ∈ rdl_properties ∧
    Prop_saturate.variant = RuleVariant.aliasOf "incrsaturate" ∧
    assign_value is_castable_spec Prop_saturate ⟨CompKind.Field, []⟩
        (Value.VBool true)
      = Except.ok ⟨CompKind.Field,
          [("saturate", Value.VBool true), ("incrsaturate", Value.VBool true)]⟩ ∧
    (dictGet [("saturate", Value.VBool true), ("incrsaturate", Value.VBool true)]
        "saturate" = some (Value.VBool true) ∧
      dictGet [("saturate", Value.VBool true), ("incrsaturate", Value.VBool true)]
        "incrsaturate" = some (Value.VBool true)) :=
  ⟨by decide, by rfl, by rfl,
    c3_alias_assignment_agrees is_castable_spec Prop_saturate (by decide)
      "incrsaturate" (by rfl) ⟨CompKind.Field, []⟩ (Value.VBool true)
      ⟨CompKind.Field,
        [("saturate", Value.VBool true), ("incrsaturate", Value.VBool true)]⟩
      (by rfl)⟩

/-- C4: after a successful assignment through a paired-boolean rule, the
assigned name is present and the opposite name is absent from the definition's
explicit property mapping — exactly one of the pair remains, in particular
when the opposite was previously explicitly set. -/
theorem c4_boolpair_exclusive (castable : ValueKind → ValueKind → Bool)
    (r : PropertyRule) (hr : r ∈ rdl_properties) (opp : String)
    (hv : r.variant = RuleVariant.boolPair opp) (cd : CompDef) (v : Value)
    (cd' : CompDef) (h : assign_value castable r cd v = Except.ok cd') :
    dictGet cd'.properties r.name = some v ∧ dictGet cd'.properties opp = none := by
  obtain ⟨hb, k, hc, ha, rfl⟩ := assign_value_ok_iff.mp h
  have hne := catalog_boolPair_opposite_ne r hr opp hv
  constructor
  · have h1 := dictGet_del_ne (dictSet cd.properties r.name v) opp r.name
      (Ne.symm hne)
    simp [applyVariant, hv, h1, dictGet_set_self]
  · simp [applyVariant, hv, dictGet_del_self]

/-- C4, witness: `sync` assigned on a signal that previously had `async`
explicitly set; afterwards only `sync` remains. -/
theorem c4_witness :
    Prop_sync ∈ rdl_properties ∧
    Prop_sync.variant = RuleVariant.boolPair "async" ∧
    assign_value is_castable_spec Prop_sync
        ⟨CompKind.Signal, [("async", Value.VBool true)]⟩ (Value.VBool true)
      = Except.ok ⟨CompKind.Signal, [("sync", Value.VBool true)]⟩ ∧
    (dictGet [("sync", Value.VBool true)] "sync" = some (Value.VBool true) ∧
      dictGet [("sync", Value.VBool true)] "async" = none) :=
  ⟨by decide, by rfl, by rfl,
    c4_boolpair_exclusive is_castable_spec Prop_sync (by decide) "async" (by rfl)
      ⟨CompKind.Signal, [("async", Value.VBool true)]⟩ (Value.VBool true)
      ⟨CompKind.Signal, [("sync", Value.VBool true)]⟩ (by rfl)⟩

/-- C5, counterexample: `ispresent` is bindable to fields, yet assigning a
precedence literal to it fails (a fatal incompatible-assignment diagnostic,
nothing stored) — refuting the claim that assignment succeeds if and only if
the entity kind is in `bindable_to`. -/
theorem c5_counterexample :
    Prop_ispresent.bindable_to.contains CompKind.Field = true ∧
    assign_value is_castable_spec Prop_ispresent ⟨CompKind.Field, []⟩
      (Value.VPrecedence 0) = Except.error AssignErr.fatalIncompatible :=
  ⟨by rfl, by rfl⟩

/-- C5, amended: when the entity kind is not in `bindable_to` the assignment
is rejected with the fatal binding diagnostic and nothing is stored; and the
assignment succeeds if and only if the kind is in `bindable_to` AND the
value classifies to a kind castable to at least one accepted kind. -/
theorem c5_binding_check (castable : ValueKind → ValueKind → Bool)
    (r : PropertyRule) (_hr : r ∈ rdl_properties) (cd : CompDef) (v : Value) :
    (r.bindable_to.contains cd.kind = false →
      assign_value castable r cd v = Except.error AssignErr.fatalBinding) ∧
    ((∃ cd', assign_value castable r cd v = Except.ok cd') ↔
      (r.bindable_to.contains cd.kind = true ∧
        ∃ k, classify v = some k ∧
          (r.valid_types.any fun t => castable k t) = true)) := by
  constructor
  · intro hb
    have hnb : ¬ r.bindable_to.contains cd.kind = true := by
      rw [hb]
      exact Bool.false_ne_true
    unfold assign_value
    rw [if_neg hnb]
  · constructor
    · rintro ⟨cd', h⟩
      obtain ⟨hb, k, hc, ha, _⟩ := assign_value_ok_iff.mp h
      exact ⟨hb, k, hc, ha⟩
    · rintro ⟨hb, k, hc, ha⟩
      exact ⟨_, assign_value_ok_iff.mpr ⟨hb, k, hc, ha, rfl⟩⟩

/-- C5, witness: `regwidth` is not bindable to fields, so assigning it on a
field definition is rejected with the fatal binding diagnostic. -/
theorem c5_witness :
    Prop_regwidth ∈ rdl_properties ∧
    ((Prop_regwidth.bindable_to.contains CompKind.Field = false →
        assign_value is_castable_spec Prop_regwidth ⟨CompKind.Field, []⟩
          (Value.VBool true) = Except.error AssignErr.fatalBinding) ∧
      ((∃ cd', assign_value is_castable_spec Prop_regwidth ⟨CompKind.Field, []⟩
          (Value.VBool true) = Except.ok cd') ↔
        (Prop_regwidth.bindable_to.contains CompKind.Field = true ∧
          ∃ k, classify (Value.VBool true) = some k ∧
            (Prop_regwidth.valid_types.any fun t => is_castable_spec k t) = true))) :=
  ⟨by decide,
    c5_binding_check is_castable_spec Prop_regwidth (by decide)
      ⟨CompKind.Field, []⟩ (Value.VBool true)⟩

/-- C6: for every paired-boolean rule of the catalog, default resolution on a
node where the property is unset returns the logical negation of the opposite
property's explicitly stored value when the opposite is explicitly present,
and otherwise the rule's own static default.  The override reads only the
explicit mapping and the static default — it never invokes the opposite
rule's default resolution, so no mutual-default recursion can arise. -/
theorem c6_boolpair_default (r : PropertyRule) (_hr : r ∈ rdl_properties)
    (opp : String) (hd : r.defaultKind = DefaultKind.oppositeBool opp)
    (node : Node) (_hunset : dictGet node.inst.properties r.name = none) :
    (∀ v, dictGet node.inst.properties opp = some v →
      get_default r node = some (Value.VBool (!truthy v))) ∧
    (dictGet node.inst.properties opp = none → get_default r node = r.default) := by
  constructor
  · intro v hv
    simp [get_default, get_default_st, hd, hv]
  · intro hv
    simp [get_default, get_default_st, hd, hv]

/-- C6, witness: `sync` unset while `async` is explicitly true resolves the
`sync` default to false. -/
theorem c6_witness :
    dictGet [("async", Value.VBool true)] "sync" = none ∧
    get_default Prop_sync ⟨⟨"s1", "s1", 1, false, [("async", Value.VBool true)]⟩, "top.s1"⟩
      = some (Value.VBool false) :=
  ⟨by decide,
    (c6_boolpair_default Prop_sync (by decide) "async" (by rfl)
        ⟨⟨"s1", "s1", 1, false, [("async", Value.VBool true)]⟩, "top.s1"⟩
        (by decide)).1
      (Value.VBool true) (by decide)⟩

/-- C7: for every field node and every integer value stored as `reset`,
validation records the recoverable width-overflow error exactly when the
value is at least 2 to the field width, and records nothing otherwise; in
particular a width-4 field with reset 20 gets the error since 20 is at least
16. -/
theorem c7_reset_int_range :
    ∀ (node : Node) (n : Nat),
      (validate Prop_reset node (Value.VInt n) = Except.ok [msg_reset_exceeds_width]
        ↔ 2 ^ node.inst.width ≤ n) ∧
      (validate Prop_reset node (Value.VInt n) = Except.ok []
        ↔ n < 2 ^ node.inst.width) := by
  intro node n
  by_cases h : n ≥ 2 ^ node.inst.width
  · exact ⟨by simp [validate, Prop_reset, h], by simp [validate, Prop_reset, h]⟩
  · refine ⟨by simp [validate, Prop_reset, h], ?_⟩
    simp [validate, Prop_reset, h]
    omega

/-- C8: for every catalog rule, default resolution on a node where the
property is unset leaves the explicit property mapping unchanged, and
resolving again on the resulting state yields the same value — default
resolution is idempotent and mutation-free. -/
theorem c8_get_default_idempotent (r : PropertyRule) (_hr : r ∈ rdl_properties)
    (node : Node) (_hunset : dictGet node.inst.properties r.name = none) :
    (get_default_st r node).2 = node.inst.properties ∧
    get_default r ⟨⟨node.inst.name, node.inst.inst_name, node.inst.width,
        node.inst.external, (get_default_st r node).2⟩, node.path⟩
      = get_default r node := by
  refine ⟨get_default_st_snd r node, ?_⟩
  rw [get_default_st_snd r node]

/-- C8, witness: `desc` on a fresh node. -/
theorem c8_witness :
    Prop_desc ∈ rdl_properties ∧
    dictGet ([] : PropMap) "desc" = none ∧
    ((get_default_st Prop_desc ⟨⟨"x1", "x1", 4, false, []⟩, "top.x1"⟩).2 = [] ∧
      get_default Prop_desc ⟨⟨"x1", "x1", 4, false,
          (get_default_st Prop_desc ⟨⟨"x1", "x1", 4, false, []⟩, "top.x1"⟩).2⟩, "top.x1"⟩
        = get_default Prop_desc ⟨⟨"x1", "x1", 4, false, []⟩, "top.x1"⟩) :=
  ⟨by decide, by decide,
    c8_get_default_idempotent Prop_desc (by decide)
      ⟨⟨"x1", "x1", 4, false, []⟩, "top.x1"⟩ (by decide)⟩

/-- C9: when neither `accesswidth` nor `regwidth` is explicitly assigned,
querying `accesswidth` resolves to the constant 32 (the static default of
`regwidth`), whatever the instance's declared width. -/
theorem c9_accesswidth_default_32 (node : Node)
    (ha : dictGet node.inst.properties "accesswidth" = none)
    (hg : dictGet node.inst.properties "regwidth" = none) :
    get_property Prop_accesswidth node = some (Value.VInt 32) := by
  simp [get_property, Prop_accesswidth, ha, get_default, get_default_st,
    get_property_regwidth, hg, Prop_regwidth]

/-- C9, witness: a register node of declared width 64 with both properties
unset resolves `accesswidth` to 32. -/
theorem c9_witness :
    dictGet ([] : PropMap) "accesswidth" = none ∧
    dictGet ([] : PropMap) "regwidth" = none ∧
    get_property Prop_accesswidth ⟨⟨"r2", "r2", 64, false, []⟩, "top.r2"⟩
      = some (Value.VInt 32) :=
  ⟨by decide, by decide,
    c9_accesswidth_default_32 ⟨⟨"r2", "r2", 64, false, []⟩, "top.r2"⟩
      (by decide) (by decide)⟩

/-- C10: validation of `reset` terminates normally (with zero or more
recorded recoverable errors) exactly when the stored value is an integer or
a field-node reference, and raises the unrecoverable `RuntimeError` engine
fault exactly otherwise. -/
theorem c10_reset_validate_shape :
    ∀ (node : Node) (v : Value),
      ((∃ e, validate Prop_reset node v = Except.ok e) ↔
        ((∃ n, v = Value.VInt n) ∨ (∃ p w, v = Value.VFieldNode p w))) ∧
      (validate Prop_reset node v = Except.error EngineFault.runtimeFault ↔
        ¬((∃ n, v = Value.VInt n) ∨ (∃ p w, v = Value.VFieldNode p w))) := by
  intro node v
  cases v <;> (simp [validate, Prop_reset]; try (split <;> simp))
